import Mathlib

/-!
Verification of the QR-code CRUD service (`app/routers/qr_code.py`).

The router is embedded shallowly: the filesystem directory is an explicit
association list from filename to entry, each HTTP operation is a pure
function from the request (and the directory state) to a status code, a
response body and the new directory state.  The helper modules the router
imports (`app.utils.common`, `app.services.qr_service`, `app.schema`,
`app.config`) are not part of the repository snapshot, so they are modelled
from the specification where marked.
-/

namespace QRService

/-! ## Filename codec (`app.utils.common`) -/

/-- The hexadecimal digit character for a value below 16 (lowercase). -/
def hexDigitChar (n : Nat) : Char :=
  Char.ofNat (if n < 10 then 48 + n else 87 + n)

/-- The value of a (lowercase) hexadecimal digit character; `none` for any
other character. -/
def hexDigitVal (c : Char) : Option Nat :=
  if 48 ≤ c.toNat ∧ c.toNat ≤ 57 then some (c.toNat - 48)
  else if 97 ≤ c.toNat ∧ c.toNat ≤ 102 then some (c.toNat - 87)
  else none

/-- The `k` least-significant base-16 digits of `n`, least significant
first, as hexadecimal digit characters. -/
def natHexDigits : Nat → Nat → List Char
  | 0, _ => []
  | k + 1, n => hexDigitChar (n % 16) :: natHexDigits k (n / 16)

/-- Inverse of the fixed-width six-digit character encoding: consume six
hexadecimal digits per character, failing on any malformed token. -/
def decodeHexChars : List Char → Option (List Char)
  | [] => some []
  | c0 :: c1 :: c2 :: c3 :: c4 :: c5 :: rest =>
    match hexDigitVal c0, hexDigitVal c1, hexDigitVal c2,
        hexDigitVal c3, hexDigitVal c4, hexDigitVal c5 with
    | some v0, some v1, some v2, some v3, some v4, some v5 =>
      let n := v0 + 16 * (v1 + 16 * (v2 + 16 * (v3 + 16 * (v4 + 16 * v5))))
      if _h : Nat.isValidChar n then
        match decodeHexChars rest with
        | some tail => some (Char.ofNat n :: tail)
        | none => none
      else none
    | _, _, _, _, _, _ => none
  | _ => none

/-- Modelled from the spec: `app.utils.common.encode_url_to_filename` is
missing from the snapshot.  Spec contract: "deterministic, reversible
transform of an arbitrary string into a token safe for use as a filesystem
path component".  Each character of the URL becomes its six-hex-digit
code point (least significant digit first), so the token consists of
hexadecimal digits only. -/
def encode_url_to_filename (url : String) : String :=
  String.mk (url.data.flatMap fun c => natHexDigits 6 c.toNat)

/-- Modelled from the spec: `app.utils.common.decode_filename_to_url` is
missing from the snapshot.  Spec contract: "exact inverse of encode;
decode fails with a FormatError if given a token that was never produced
by encode" — failure is `none`. -/
def decode_filename_to_url (stem : String) : Option String :=
  (decodeHexChars stem.data).map String.mk

/-! ## Filesystem model

The QR directory (`QR_DIRECTORY`) is a flat directory; it is embedded as an
association list from entry name to entry.  An entry is either a regular
file with its bytes or a (sub)directory, so that the distinction between
`path.exists()` and `os.path.isfile(path)` in the router is expressible. -/

inductive FSEntry
  | file : List Nat → FSEntry
  | dir : FSEntry
deriving DecidableEq

/-- The QR directory state: entry name to entry. -/
abbrev FS := List (String × FSEntry)

/-- The entry stored under `name`, if any. -/
def fsLookup : FS → String → Option FSEntry
  | [], _ => none
  | (n, e) :: rest, name => if n = name then some e else fsLookup rest name

/-- `pathlib.Path.exists`: an entry of any kind is present under `name`. -/
def fsExists (fs : FS) (name : String) : Bool :=
  (fsLookup fs name).isSome

/-- `os.path.isfile` / `pathlib.Path.is_file`: a regular file is present
under `name`. -/
def fsIsFile (fs : FS) (name : String) : Bool :=
  match fsLookup fs name with
  | some (.file _) => true
  | _ => false

/-- The bytes of the regular file under `name` (`[]` when absent; the
router only reads a file after its `is_file` check). -/
def fsFileBytes (fs : FS) (name : String) : List Nat :=
  match fsLookup fs name with
  | some (.file bytes) => bytes
  | _ => []

/-- Writing a fresh file into the directory. -/
def fsInsert (fs : FS) (name : String) (e : FSEntry) : FS :=
  (name, e) :: fs

/-- `os.remove` / `Path.unlink`: removing the entry under `name`. -/
def fsErase (fs : FS) (name : String) : FS :=
  fs.filter fun p => p.1 ≠ name

/-! ## Configuration (`app.config`) and schema (`app.schema`) -/

/-- Modelled from the spec: `app.config` is missing from the snapshot; the
spec enumerates the configuration as the storage directory (implicit in
`FS`), the public base URL, fill and background colors, and the public
download sub-path. -/
structure Config where
  server_base_url : String
  server_download_folder : String
  fill_color : String
  back_color : String

/-- Modelled from the spec: `app.schema.QRCodeRequest` is missing from the
snapshot; the spec gives the create input as `{url: string, size: number}`. -/
structure QRCodeRequest where
  url : String
  size : Nat

/-- Modelled from the spec: `app.schema.QRCodeResponse` is missing from the
snapshot; the spec gives the response body as `{message, qr_code_url, links}`. -/
structure QRCodeResponse where
  message : String
  qr_code_url : String
  links : List (String × String)
deriving DecidableEq

/-! ## Link builder and JSON bodies -/

/-- Modelled from the spec: `app.utils.common.generate_links` is missing
from the snapshot.  Spec contract: "given the current operation produces a
small, fixed mapping from relation name to a fully qualified URL, all
derived by string concatenation of base_url, a fixed resource path, and
the filename; pure function of its inputs". -/
def generate_links (_action : String) (qr_filename : String)
    (base_url : String) (download_url : String) : List (String × String) :=
  [("self", download_url),
   ("create", base_url ++ "/qr-codes/"),
   ("list", base_url ++ "/qr-codes/"),
   ("delete", base_url ++ "/qr-codes/" ++ qr_filename)]

/-- A JSON value, as far as the response bodies need: strings and objects
with ordered fields. -/
inductive JVal
  | str : String → JVal
  | obj : List (String × JVal) → JVal

/-- The field names of a JSON object body. -/
def JVal.keys : JVal → List String
  | .obj fields => fields.map Prod.fst
  | .str _ => []

/-- A link set rendered as a JSON object. -/
def linksJson (links : List (String × String)) : JVal :=
  .obj (links.map fun p => (p.1, .str p.2))

/-- The serialized `QRCodeResponse` body: fields in declaration order. -/
def QRCodeResponse.toJson (r : QRCodeResponse) : JVal :=
  .obj [("message", .str r.message),
        ("qr_code_url", .str r.qr_code_url),
        ("links", linksJson r.links)]

/-! ## The four router operations (`app/routers/qr_code.py`) -/

/-- `create_qr_code` (router lines 37-56).  `gen` stands for the imported
`app.services.qr_service.generate_qr_code` (missing from the snapshot;
per the spec it renders and writes the PNG bytes), passed as a parameter
so that theorems can state in which branch it is invoked.  The result is
the HTTP status, the JSON body, and the directory afterwards: the 409
branch returns the literal `{"message": ..., "links": ...}` object, the
201 branch a serialized `QRCodeResponse`. -/
def create_qr_code (gen : String → String → String → Nat → List Nat)
    (cfg : Config) (fs : FS) (request : QRCodeRequest) : Nat × JVal × FS :=
  let encoded := encode_url_to_filename request.url
  let qr_filename := encoded ++ ".png"
  let download_url :=
    cfg.server_base_url ++ "/" ++ cfg.server_download_folder ++ "/" ++ qr_filename
  let links := generate_links "create" qr_filename cfg.server_base_url download_url
  if fsExists fs qr_filename then
    (409, JVal.obj [("message", .str "QR code already exists."),
                    ("links", linksJson links)], fs)
  else
    (201, (QRCodeResponse.mk "QR code created successfully." download_url links).toJson,
     fsInsert fs qr_filename
       (.file (gen request.url cfg.fill_color cfg.back_color request.size)))

/-- Whether a filename carries the `.png` extension. -/
def endsWithPng (f : String) : Bool :=
  decide (4 ≤ f.data.length) && f.data.drop (f.data.length - 4) == ".png".data

/-- Modelled from the spec: `app.services.qr_service.list_qr_codes` is
missing from the snapshot.  Spec contract: "list(directory) -> sequence of
filenames present in directory, filtered to the expected PNG extension". -/
def list_qr_codes (fs : FS) : List String :=
  (fs.map Prod.fst).filter endsWithPng

/-- `fname[:-4]`: the filename with its last four characters removed. -/
def strDropLast4 (s : String) : String :=
  String.mk (s.data.take (s.data.length - 4))

/-- One entry of the list response (router lines 68-77): the filename stem
(`fname[:-4]`) is decoded back to the URL; as in the Python comprehension a
decode failure propagates (there is no handler), so the whole listing is
`none` as soon as one entry is malformed. -/
def list_entry (cfg : Config) (fname : String) : Option QRCodeResponse :=
  (decode_filename_to_url (strDropLast4 fname)).map fun url =>
    { message := "QR code available"
      qr_code_url := url
      links := generate_links "list" fname cfg.server_base_url
        (cfg.server_base_url ++ "/" ++ cfg.server_download_folder ++ "/" ++ fname) }

/-- `list_qr_codes_endpoint` (router lines 63-78). -/
def list_qr_codes_endpoint (cfg : Config) (fs : FS) : Option (List QRCodeResponse) :=
  (list_qr_codes fs).mapM (list_entry cfg)

/-- `retrieve_qr_code` (router lines 86-90): 404 unless a regular file is
present, otherwise the raw bytes with the `image/png` media type (no link
set — the `FileResponse` is the resource itself). -/
def retrieve_qr_code (fs : FS) (qr_filename : String) :
    Except (Nat × String) (List Nat × String) :=
  if ¬ fsIsFile fs qr_filename then .error (404, "QR code not found")
  else .ok (fsFileBytes fs qr_filename, "image/png")

/-- `delete_qr_code_endpoint` (router lines 97-103): 404 unless a regular
file is present, otherwise the file is removed
(`app.services.qr_service.delete_qr_code`, modelled from the spec as the
removal of the entry) and the response is an empty 204.  The result is the
HTTP outcome and the directory afterwards. -/
def delete_qr_code_endpoint (fs : FS) (qr_filename : String) :
    Except (Nat × String) Nat × FS :=
  if ¬ fsIsFile fs qr_filename then (.error (404, "QR code not found"), fs)
  else (.ok 204, fsErase fs qr_filename)

/-! ## Helper lemmas -/

theorem fsLookup_fsErase (fs : FS) (n : String) : fsLookup (fsErase fs n) n = none := by
  induction fs with
  | nil => rfl
  | cons p fs ih =>
    rcases p with ⟨m, e⟩
    by_cases h : m = n
    · simpa [fsErase, List.filter_cons, h] using ih
    · simp only [fsErase, List.filter_cons, ne_eq, decide_not] at ih ⊢
      simp [h, fsLookup, ih]

theorem fsIsFile_fsErase (fs : FS) (n : String) : fsIsFile (fsErase fs n) n = false := by
  simp [fsIsFile, fsLookup_fsErase]

theorem fsExists_fsInsert (fs : FS) (n : String) (e : FSEntry) :
    fsExists (fsInsert fs n e) n = true := by
  simp [fsExists, fsInsert, fsLookup]

theorem fsLookup_fsInsert (fs : FS) (n : String) (e : FSEntry) :
    fsLookup (fsInsert fs n e) n = some e := by
  simp [fsInsert, fsLookup]

theorem fsIsFile_isSome {fs : FS} {n : String} (h : fsIsFile fs n = true) :
    fsExists fs n = true := by
  unfold fsIsFile at h
  unfold fsExists
  cases hl : fsLookup fs n with
  | none => rw [hl] at h; simp at h
  | some e => simp

theorem hexDigitVal_hexDigitChar : ∀ d < 16, hexDigitVal (hexDigitChar d) = some d := by
  decide

theorem decodeHexChars_encode (cs : List Char) :
    decodeHexChars (cs.flatMap fun c => natHexDigits 6 c.toNat) = some cs := by
  induction cs with
  | nil => rfl
  | cons c cs ih =>
    have hv : Nat.isValidChar c.toNat := c.valid
    have hlt : c.toNat < 16777216 := by
      rcases hv with h | ⟨h1, h2⟩ <;> omega
    rw [List.flatMap_cons]
    simp only [natHexDigits] at ih
    simp only [natHexDigits, List.cons_append, List.nil_append]
    rw [decodeHexChars]
    rw [hexDigitVal_hexDigitChar _ (Nat.mod_lt _ (by omega)),
      hexDigitVal_hexDigitChar _ (Nat.mod_lt _ (by omega)),
      hexDigitVal_hexDigitChar _ (Nat.mod_lt _ (by omega)),
      hexDigitVal_hexDigitChar _ (Nat.mod_lt _ (by omega)),
      hexDigitVal_hexDigitChar _ (Nat.mod_lt _ (by omega)),
      hexDigitVal_hexDigitChar _ (Nat.mod_lt _ (by omega))]
    have hn : c.toNat % 16 + 16 * (c.toNat / 16 % 16 + 16 * (c.toNat / 16 / 16 % 16 +
        16 * (c.toNat / 16 / 16 / 16 % 16 + 16 * (c.toNat / 16 / 16 / 16 / 16 % 16 +
        16 * (c.toNat / 16 / 16 / 16 / 16 / 16 % 16))))) = c.toNat := by
      omega
    simp only [hn, dif_pos hv, ih, Char.ofNat_toNat]

/-- The codec round-trip on arbitrary strings. -/
theorem decode_encode (s : String) :
    decode_filename_to_url (encode_url_to_filename s) = some s := by
  unfold decode_filename_to_url encode_url_to_filename
  rw [decodeHexChars_encode]
  rfl

end QRService

/-- C1: for every input string `x`, decoding the filename stem produced by
encoding `x` returns exactly `x`: the codec round-trip is the identity. -/
theorem c1_codec_round_trip (x : String) :
    QRService.decode_filename_to_url (QRService.encode_url_to_filename x) = some x :=
  QRService.decode_encode x

/-- C6: the retrieve operation fails with 404 exactly when no regular file
of that name exists; otherwise it returns the raw stored bytes with content
type `image/png` and nothing else (no link set). -/
theorem c6_retrieve_404_iff_absent (fs : QRService.FS) (name : String) :
    (QRService.retrieve_qr_code fs name = .error (404, "QR code not found")
        ↔ QRService.fsIsFile fs name = false)
    ∧ ∀ bytes, QRService.fsLookup fs name = some (.file bytes) →
        QRService.retrieve_qr_code fs name = .ok (bytes, "image/png") := by
  constructor
  · unfold QRService.retrieve_qr_code
    cases h : QRService.fsIsFile fs name <;> simp [h]
  · intro bytes hb
    have hf : QRService.fsIsFile fs name = true := by
      unfold QRService.fsIsFile
      rw [hb]
    unfold QRService.retrieve_qr_code QRService.fsFileBytes
    rw [hf, hb]
    simp

/-- C6 witness: with the directory holding the single file `f.png`,
retrieving `f.png` yields its bytes as `image/png` and retrieving a
never-created name yields 404. -/
theorem c6_retrieve_404_iff_absent_witness :
    QRService.retrieve_qr_code [("f.png", .file [3, 7])] "f.png" = .ok ([3, 7], "image/png")
    ∧ QRService.retrieve_qr_code [("f.png", .file [3, 7])] "ghost.png" =
        .error (404, "QR code not found") :=
  ⟨(c6_retrieve_404_iff_absent [("f.png", .file [3, 7])] "f.png").2 [3, 7] (by decide),
   (c6_retrieve_404_iff_absent [("f.png", .file [3, 7])] "ghost.png").1.mpr (by decide)⟩

/-- C7: the delete operation fails with 404 when no regular file of that
name is present (leaving the directory unchanged); otherwise it removes the
file and responds 204 with no body, after which retrieving or deleting the
same filename yields 404. -/
theorem c7_delete_then_404 (fs : QRService.FS) (name : String) :
    (QRService.fsIsFile fs name = false →
      QRService.delete_qr_code_endpoint fs name = (.error (404, "QR code not found"), fs))
    ∧ (QRService.fsIsFile fs name = true →
      QRService.delete_qr_code_endpoint fs name = (.ok 204, QRService.fsErase fs name)
      ∧ QRService.retrieve_qr_code (QRService.fsErase fs name) name =
          .error (404, "QR code not found")
      ∧ QRService.delete_qr_code_endpoint (QRService.fsErase fs name) name =
          (.error (404, "QR code not found"), QRService.fsErase fs name)) := by
  refine ⟨fun h => ?_, fun h => ⟨?_, ?_, ?_⟩⟩
  · simp [QRService.delete_qr_code_endpoint, h]
  · simp [QRService.delete_qr_code_endpoint, h]
  · simp [QRService.retrieve_qr_code, QRService.fsIsFile_fsErase]
  · simp [QRService.delete_qr_code_endpoint, QRService.fsIsFile_fsErase]

/-- C7 witness: deleting the single file `f.png` yields 204 and removes it,
after which retrieve and delete both yield 404; deleting an absent name
yields 404. -/
theorem c7_delete_then_404_witness :
    QRService.delete_qr_code_endpoint [("f.png", .file [3])] "f.png" = (.ok 204, [])
    ∧ QRService.retrieve_qr_code [] "f.png" = .error (404, "QR code not found")
    ∧ QRService.delete_qr_code_endpoint [] "f.png" =
        (.error (404, "QR code not found"), []) := by
  have h := (c7_delete_then_404 [("f.png", QRService.FSEntry.file [3])] "f.png").2 (by decide)
  have herase : QRService.fsErase [("f.png", QRService.FSEntry.file [3])] "f.png" = [] := by decide
  exact ⟨herase ▸ h.1, herase ▸ h.2.1, herase ▸ h.2.2⟩

/-- C10: retrieve and delete are guarded by an is-regular-file check, not a
mere existence check: a name present in the directory as a directory entry
exists but is not a regular file, and both operations answer 404 (delete
leaving the state unchanged) whenever no regular file is present. -/
theorem c10_not_regular_file_404 (fs : QRService.FS) (name : String) :
    (QRService.fsLookup fs name = some .dir →
      QRService.fsExists fs name = true ∧ QRService.fsIsFile fs name = false)
    ∧ (QRService.fsIsFile fs name = false →
      QRService.retrieve_qr_code fs name = .error (404, "QR code not found")
      ∧ QRService.delete_qr_code_endpoint fs name = (.error (404, "QR code not found"), fs)) := by
  refine ⟨fun h => ⟨?_, ?_⟩, fun h => ⟨?_, ?_⟩⟩
  · simp [QRService.fsExists, h]
  · simp [QRService.fsIsFile, h]
  · simp [QRService.retrieve_qr_code, h]
  · simp [QRService.delete_qr_code_endpoint, h]

/-- C10 witness: with `sub.png` present as a directory, it exists, yet
retrieve and delete both answer 404 and the directory is unchanged. -/
theorem c10_not_regular_file_404_witness :
    QRService.fsExists [("sub.png", .dir)] "sub.png" = true
    ∧ QRService.retrieve_qr_code [("sub.png", .dir)] "sub.png" =
        .error (404, "QR code not found")
    ∧ QRService.delete_qr_code_endpoint [("sub.png", .dir)] "sub.png" =
        (.error (404, "QR code not found"), [("sub.png", .dir)]) := by
  have h := c10_not_regular_file_404 [("sub.png", QRService.FSEntry.dir)] "sub.png"
  have h1 := h.1 (by decide)
  have h2 := h.2 h1.2
  exact ⟨h1.1, h2.1, h2.2⟩

/-- C2: when the derived path already exists, create responds 409 with a
message and link set, leaves the directory (hence the existing file's
bytes) unchanged, and does not invoke the QR Store generator (the outcome
is the same for every generator); consequently creating the same URL twice
yields 201 then 409 with the state of the first call unmodified. -/
theorem c2_duplicate_create_conflict
    (gen gen' : String → String → String → Nat → List Nat)
    (cfg : QRService.Config) (fs : QRService.FS) (req : QRService.QRCodeRequest) :
    (QRService.fsExists fs (QRService.encode_url_to_filename req.url ++ ".png") = true →
      QRService.create_qr_code gen cfg fs req =
        (409,
         QRService.JVal.obj
           [("message", .str "QR code already exists."),
            ("links", QRService.linksJson (QRService.generate_links "create"
              (QRService.encode_url_to_filename req.url ++ ".png") cfg.server_base_url
              (cfg.server_base_url ++ "/" ++ cfg.server_download_folder ++ "/" ++
                (QRService.encode_url_to_filename req.url ++ ".png"))))],
         fs)
      ∧ QRService.create_qr_code gen cfg fs req = QRService.create_qr_code gen' cfg fs req)
    ∧ (QRService.fsExists fs (QRService.encode_url_to_filename req.url ++ ".png") = false →
      (QRService.create_qr_code gen cfg fs req).1 = 201
      ∧ (QRService.create_qr_code gen cfg
          ((QRService.create_qr_code gen cfg fs req).2.2) req).1 = 409
      ∧ (QRService.create_qr_code gen cfg
          ((QRService.create_qr_code gen cfg fs req).2.2) req).2.2 =
            (QRService.create_qr_code gen cfg fs req).2.2) := by
  constructor
  · intro h
    constructor
    · simp [QRService.create_qr_code, h]
    · simp [QRService.create_qr_code, h]
  · intro h
    refine ⟨by simp [QRService.create_qr_code, h], ?_, ?_⟩ <;>
      simp [QRService.create_qr_code, h, QRService.fsExists_fsInsert]

/-- C2 witness: creating the URL `"a"` on an empty directory yields 201,
creating it again yields 409 with the directory unchanged, and on a
directory already holding the derived path the 409 outcome is identical
under two different generators. -/
theorem c2_duplicate_create_conflict_witness :
    (QRService.create_qr_code (fun _ _ _ _ => [5]) ⟨"b", "d", "f", "k"⟩ [] ⟨"a", 1⟩).1 = 201
    ∧ (QRService.create_qr_code (fun _ _ _ _ => [5]) ⟨"b", "d", "f", "k"⟩
        ((QRService.create_qr_code (fun _ _ _ _ => [5]) ⟨"b", "d", "f", "k"⟩ [] ⟨"a", 1⟩).2.2)
        ⟨"a", 1⟩).1 = 409
    ∧ (QRService.create_qr_code (fun _ _ _ _ => [5]) ⟨"b", "d", "f", "k"⟩
        ((QRService.create_qr_code (fun _ _ _ _ => [5]) ⟨"b", "d", "f", "k"⟩ [] ⟨"a", 1⟩).2.2)
        ⟨"a", 1⟩).2.2 =
        (QRService.create_qr_code (fun _ _ _ _ => [5]) ⟨"b", "d", "f", "k"⟩ [] ⟨"a", 1⟩).2.2
    ∧ QRService.create_qr_code (fun _ _ _ _ => [5]) ⟨"b", "d", "f", "k"⟩
        [("160000.png", .file [5])] ⟨"a", 1⟩ =
      QRService.create_qr_code (fun _ _ _ _ => [9, 9]) ⟨"b", "d", "f", "k"⟩
        [("160000.png", .file [5])] ⟨"a", 1⟩ := by
  have h2 := (c2_duplicate_create_conflict (fun _ _ _ _ => [5]) (fun _ _ _ _ => [9, 9])
    ⟨"b", "d", "f", "k"⟩ [] ⟨"a", 1⟩).2 (by decide)
  have h1 := (c2_duplicate_create_conflict (fun _ _ _ _ => [5]) (fun _ _ _ _ => [9, 9])
    ⟨"b", "d", "f", "k"⟩ [("160000.png", .file [5])] ⟨"a", 1⟩).1 (by decide)
  exact ⟨h2.1, h2.2.1, h2.2.2, h1.2⟩

/-- C3: when the derived path does not exist, create invokes the generator
and responds 201 with a message, the download URL
`<base_url>/<download_folder>/<encode(url)>.png` and a link set, and the
new directory holds the generated bytes as one file named
`<encode(url)>.png` alongside the previous entries of the flat directory. -/
theorem c3_create_success (gen : String → String → String → Nat → List Nat)
    (cfg : QRService.Config) (fs : QRService.FS) (req : QRService.QRCodeRequest)
    (h : QRService.fsExists fs (QRService.encode_url_to_filename req.url ++ ".png") = false) :
    QRService.create_qr_code gen cfg fs req =
      (201,
       QRService.JVal.obj
         [("message", .str "QR code created successfully."),
          ("qr_code_url", .str (cfg.server_base_url ++ "/" ++ cfg.server_download_folder ++
            "/" ++ (QRService.encode_url_to_filename req.url ++ ".png"))),
          ("links", QRService.linksJson (QRService.generate_links "create"
            (QRService.encode_url_to_filename req.url ++ ".png") cfg.server_base_url
            (cfg.server_base_url ++ "/" ++ cfg.server_download_folder ++ "/" ++
              (QRService.encode_url_to_filename req.url ++ ".png"))))],
       QRService.fsInsert fs (QRService.encode_url_to_filename req.url ++ ".png")
         (.file (gen req.url cfg.fill_color cfg.back_color req.size)))
    ∧ QRService.fsLookup (QRService.create_qr_code gen cfg fs req).2.2
        (QRService.encode_url_to_filename req.url ++ ".png") =
          some (.file (gen req.url cfg.fill_color cfg.back_color req.size)) := by
  constructor
  · simp [QRService.create_qr_code, h, QRService.QRCodeResponse.toJson]
  · simp [QRService.create_qr_code, h, QRService.fsLookup_fsInsert]

/-- C3 witness: creating the URL `"a"` on an empty directory responds 201
with download URL `b/d/160000.png` and stores the generated bytes under
`160000.png`. -/
theorem c3_create_success_witness :
    QRService.create_qr_code (fun _ _ _ _ => [5]) ⟨"b", "d", "f", "k"⟩ [] ⟨"a", 1⟩ =
      (201,
       QRService.JVal.obj
         [("message", .str "QR code created successfully."),
          ("qr_code_url", .str "b/d/160000.png"),
          ("links", QRService.linksJson
            (QRService.generate_links "create" "160000.png" "b" "b/d/160000.png"))],
       [("160000.png", .file [5])])
    ∧ QRService.fsLookup
        (QRService.create_qr_code (fun _ _ _ _ => [5]) ⟨"b", "d", "f", "k"⟩ [] ⟨"a", 1⟩).2.2
        "160000.png" = some (.file [5]) := by
  have h := c3_create_success (fun _ _ _ _ => [5]) ⟨"b", "d", "f", "k"⟩ [] ⟨"a", 1⟩ (by decide)
  refine ⟨?_, ?_⟩
  · rw [h.1]; rfl
  · have h2 := h.2
    rw [show QRService.encode_url_to_filename "a" ++ ".png" = "160000.png" from rfl] at h2
    exact h2

/-- C8: the storage key derived by create is a deterministic function of
the URL alone: two requests with the same URL (regardless of size) encode
to the same filename stem, and the create operation touches the same set of
directory entry names for both. -/
theorem c8_deterministic_key (gen : String → String → String → Nat → List Nat)
    (cfg : QRService.Config) (fs : QRService.FS)
    (req req' : QRService.QRCodeRequest) (h : req.url = req'.url) :
    QRService.encode_url_to_filename req.url = QRService.encode_url_to_filename req'.url
    ∧ (QRService.create_qr_code gen cfg fs req).2.2.map Prod.fst =
        (QRService.create_qr_code gen cfg fs req').2.2.map Prod.fst
    ∧ (QRService.create_qr_code gen cfg fs req).1 =
        (QRService.create_qr_code gen cfg fs req').1 := by
  refine ⟨by rw [h], ?_, ?_⟩ <;>
  · unfold QRService.create_qr_code
    rw [h]
    cases hx : QRService.fsExists fs (QRService.encode_url_to_filename req'.url ++ ".png") <;>
      simp [hx, QRService.fsInsert]

/-- C8 witness: requests for the URL `"a"` with sizes 1 and 9 derive the
same stem, the same resulting entry names, and the same status. -/
theorem c8_deterministic_key_witness :
    QRService.encode_url_to_filename "a" = QRService.encode_url_to_filename "a"
    ∧ (QRService.create_qr_code (fun _ _ _ s => [s]) ⟨"b", "d", "f", "k"⟩ [] ⟨"a", 1⟩).2.2.map
        Prod.fst =
      (QRService.create_qr_code (fun _ _ _ s => [s]) ⟨"b", "d", "f", "k"⟩ [] ⟨"a", 9⟩).2.2.map
        Prod.fst :=
  ⟨(c8_deterministic_key (fun _ _ _ s => [s]) ⟨"b", "d", "f", "k"⟩ [] ⟨"a", 1⟩ ⟨"a", 9⟩ rfl).1,
   (c8_deterministic_key (fun _ _ _ s => [s]) ⟨"b", "d", "f", "k"⟩ [] ⟨"a", 1⟩ ⟨"a", 9⟩ rfl).2.1⟩

/-- C9: the 409 Conflict body of create has exactly the fields `message`
and `links` — in particular no `qr_code_url` — while the 201 Created body
has the fields `message`, `qr_code_url` and `links`. -/
theorem c9_conflict_body_omits_url (gen : String → String → String → Nat → List Nat)
    (cfg : QRService.Config) (fs : QRService.FS) (req : QRService.QRCodeRequest) :
    (QRService.fsExists fs (QRService.encode_url_to_filename req.url ++ ".png") = true →
      (QRService.create_qr_code gen cfg fs req).2.1.keys = ["message", "links"]
      ∧ "qr_code_url" ∉ (QRService.create_qr_code gen cfg fs req).2.1.keys)
    ∧ (QRService.fsExists fs (QRService.encode_url_to_filename req.url ++ ".png") = false →
      (QRService.create_qr_code gen cfg fs req).2.1.keys =
        ["message", "qr_code_url", "links"]) := by
  constructor
  · intro h
    constructor <;> simp [QRService.create_qr_code, h, QRService.JVal.keys]
  · intro h
    simp [QRService.create_qr_code, h, QRService.QRCodeResponse.toJson, QRService.JVal.keys]

/-- C9 witness: with `160000.png` already present, creating the URL `"a"`
yields a body with keys `message, links` only; on an empty directory the
created body has keys `message, qr_code_url, links`. -/
theorem c9_conflict_body_omits_url_witness :
    (QRService.create_qr_code (fun _ _ _ _ => [5]) ⟨"b", "d", "f", "k"⟩
        [("160000.png", .file [5])] ⟨"a", 1⟩).2.1.keys = ["message", "links"]
    ∧ (QRService.create_qr_code (fun _ _ _ _ => [5]) ⟨"b", "d", "f", "k"⟩
        [] ⟨"a", 1⟩).2.1.keys = ["message", "qr_code_url", "links"] :=
  ⟨((c9_conflict_body_omits_url (fun _ _ _ _ => [5]) ⟨"b", "d", "f", "k"⟩
      [("160000.png", .file [5])] ⟨"a", 1⟩).1 (by decide)).1,
   (c9_conflict_body_omits_url (fun _ _ _ _ => [5]) ⟨"b", "d", "f", "k"⟩
      [] ⟨"a", 1⟩).2 (by decide)⟩

theorem mapM_option_forall2 {α β : Type} (f : α → Option β) :
    ∀ (l : List α) (r : List β), l.mapM f = some r →
      List.Forall₂ (fun a b => f a = some b) l r := by
  intro l
  induction l with
  | nil =>
    intro r h
    simp only [List.mapM_nil] at h
    cases h
    exact List.Forall₂.nil
  | cons a l ih =>
    intro r h
    rw [List.mapM_cons] at h
    cases hfa : f a with
    | none => rw [hfa] at h; simp at h
    | some b =>
      rw [hfa] at h
      cases hml : l.mapM f with
      | none => rw [hml] at h; simp at h
      | some bs =>
        rw [hml] at h
        simp only [Option.pure_def, Option.bind_eq_bind, Option.some_bind,
          Option.some.injEq] at h
        cases h
        exact List.Forall₂.cons hfa (ih bs hml)

/-- C4: whenever the listing succeeds, it returns exactly one response
entry per filename returned by the store, each entry's URL being the decode
of the filename with its last four characters (the `.png` extension)
removed, and each entry carrying its own link set. -/
theorem c4_list_one_entry_per_file (cfg : QRService.Config) (fs : QRService.FS)
    (rs : List QRService.QRCodeResponse)
    (h : QRService.list_qr_codes_endpoint cfg fs = some rs) :
    rs.length = (QRService.list_qr_codes fs).length
    ∧ List.Forall₂ (fun (fname : String) (r : QRService.QRCodeResponse) =>
        QRService.decode_filename_to_url (QRService.strDropLast4 fname) = some r.qr_code_url
        ∧ r.message = "QR code available"
        ∧ r.links = QRService.generate_links "list" fname cfg.server_base_url
            (cfg.server_base_url ++ "/" ++ cfg.server_download_folder ++ "/" ++ fname))
        (QRService.list_qr_codes fs) rs := by
  have h2 := mapM_option_forall2 (QRService.list_entry cfg) (QRService.list_qr_codes fs) rs h
  refine ⟨h2.length_eq.symm, h2.imp ?_⟩
  intro a b hb
  unfold QRService.list_entry at hb
  rcases Option.map_eq_some'.mp hb with ⟨url, hurl, hbeq⟩
  subst hbeq
  exact ⟨hurl, rfl, rfl⟩

/-- C4 witness: with the single stored file `160000.png` the listing
returns one entry whose URL is the decoded stem `"a"` with its link set. -/
theorem c4_list_one_entry_per_file_witness :
    [({ message := "QR code available", qr_code_url := "a",
        links := QRService.generate_links "list" "160000.png" "b" "b/d/160000.png" }
        : QRService.QRCodeResponse)].length =
      (QRService.list_qr_codes [("160000.png", .file [1])]).length
    ∧ List.Forall₂ (fun (fname : String) (r : QRService.QRCodeResponse) =>
        QRService.decode_filename_to_url (QRService.strDropLast4 fname) = some r.qr_code_url
        ∧ r.message = "QR code available"
        ∧ r.links = QRService.generate_links "list" fname "b" ("b" ++ "/" ++ "d" ++ "/" ++ fname))
        (QRService.list_qr_codes [("160000.png", .file [1])])
        [{ message := "QR code available", qr_code_url := "a",
           links := QRService.generate_links "list" "160000.png" "b" "b/d/160000.png" }] :=
  c4_list_one_entry_per_file ⟨"b", "d", "f", "k"⟩ [("160000.png", .file [1])]
    [{ message := "QR code available", qr_code_url := "a",
       links := QRService.generate_links "list" "160000.png" "b" "b/d/160000.png" }] (by decide)

/-- C5: the router's list comprehension has no handler around the decode of
each stem, so one malformed filename makes the whole listing fail rather
than being skipped: with `160000.png` (well-formed) and `zz.png`
(malformed stem) both stored, the store lists both, the malformed stem
fails to decode, and the endpoint returns a failure instead of the entry
for the well-formed file — which it does return when listed alone. -/
theorem c5_malformed_entry_fails_whole_listing :
    QRService.list_qr_codes [("160000.png", .file [0]), ("zz.png", .file [1])] =
      ["160000.png", "zz.png"]
    ∧ QRService.decode_filename_to_url (QRService.strDropLast4 "zz.png") = none
    ∧ QRService.list_qr_codes_endpoint ⟨"b", "d", "f", "k"⟩
        [("160000.png", .file [0]), ("zz.png", .file [1])] = none
    ∧ QRService.list_qr_codes_endpoint ⟨"b", "d", "f", "k"⟩ [("160000.png", .file [0])] =
        some [{ message := "QR code available", qr_code_url := "a",
                links := QRService.generate_links "list" "160000.png" "b" "b/d/160000.png" }] :=
  ⟨by decide, by decide, by decide, by decide⟩
